import Mathlib

set_option maxRecDepth 10000

namespace TaskAutomation

/-- updateFirst replaces the first element satisfying p with f applied to it.
It mirrors the in-place mutation of the single object returned by
Array.prototype.find / findIndex in the JavaScript source (Mongoose
updateOne likewise updates the first matching document). -/
def updateFirst (p : α → Bool) (f : α → α) : List α → List α
  | [] => []
  | a :: as => if p a then f a :: as else a :: updateFirst p f as

/-- istOffsetMs is the IST offset used by certificateHelper.js (UTC+5:30). -/
def istOffsetMs : Int := 19800000

/-- msPerDay is the number of milliseconds in a civil day. -/
def msPerDay : Int := 86400000

/-- getISTDate, from certificateHelper.js lines 28-38: shifts an instant by the
IST offset and truncates to midnight UTC of the shifted day, i.e. it returns
the epoch instant of the start of the instant's IST civil day. -/
def getISTDate (t : Int) : Int := ((t + istOffsetMs).fdiv msPerDay) * msPerDay

/-- istDayNumber is the IST civil-day index of an instant; two instants share
an IST civil year/month/day exactly when their day numbers agree. -/
def istDayNumber (t : Int) : Int := (t + istOffsetMs).fdiv msPerDay

/-- isEventToday, from certificateHelper.js line 45: the event qualifies for
today exactly when getISTDate of the event date and of now coincide. -/
def isEventToday (eventDate now : Int) : Bool :=
  getISTDate eventDate == getISTDate now

/-- sameCivilDayIST is the specification-side qualification test, written from
the spec's words: the event's civil date (year/month/day in the configured
timezone) equals the current civil date. -/
def sameCivilDayIST (a b : Int) : Bool := istDayNumber a == istDayNumber b

/-- CertResult models the value returned by
certificateGenerator.generateCertificate (an external collaborator). -/
structure CertResult where
  success : Bool
  certificateUrl : String := ""
  certificatePath : String := ""
  message : String := ""
deriving Repr, DecidableEq

/-- EmailResult models the value returned by
emailService.sendCertificateEmail (an external collaborator). -/
structure EmailResult where
  success : Bool
  message : String := ""
deriving Repr, DecidableEq

/-- GenerationRecord models one entry of certificate.generatedCertificates. -/
structure GenerationRecord where
  participantId : Nat
  certificateUrl : String := ""
  certificatePath : Option String := none
  generatedAt : Option Int := none
  sentAt : Option Int := none
deriving Repr, DecidableEq

/-- Participant models the Participant document. -/
structure Participant where
  id : Nat
  name : String := ""
  email : String := ""
  eventId : Nat
  certificateSent : Bool := false
  certificateSentAt : Option Int := none
deriving Repr, DecidableEq

/-- Event models the Event document; participants is the list of participant
ids referenced by the event. -/
structure Event where
  id : Nat
  name : String := ""
  date : Int := 0
  participants : List Nat := []
deriving Repr, DecidableEq

/-- Certificate models the per-event CertificateTemplate document. -/
structure Certificate where
  eventId : Nat
  templateType : String := ""
  generatedCertificates : List GenerationRecord := []
deriving Repr, DecidableEq

/-- DB models the persistent storage queried and updated by the scheduler. -/
structure DB where
  events : List Event := []
  participants : List Participant := []
  certificates : List Certificate := []
deriving Repr, DecidableEq

/-- findEvent models Event.findById. -/
def DB.findEvent (db : DB) (eventId : Nat) : Option Event :=
  db.events.find? (fun e => e.id == eventId)

/-- findCertificate models Certificate.findOne for an eventId filter. -/
def DB.findCertificate (db : DB) (eventId : Nat) : Option Certificate :=
  db.certificates.find? (fun c => c.eventId == eventId)

/-- saveCertificate models certificate.save: the queried document (the first
one matching the eventId) is replaced by its updated value. -/
def DB.saveCertificate (db : DB) (cert : Certificate) : DB :=
  { db with
    certificates :=
      updateFirst (fun c => c.eventId == cert.eventId) (fun _ => cert)
        db.certificates }

/-- ItemResult models one per-participant entry of the results array built by
the helper steps. -/
structure ItemResult where
  participantId : Nat
  participantName : String := ""
  success : Bool
  error : Option String := none
deriving Repr, DecidableEq

/-- StepResult models the structured object returned by the helper steps;
fields absent from a given JavaScript return value are none / default. -/
structure StepResult where
  success : Bool
  message : String
  scheduled : Option Bool := none
  count : Option Nat := none
  total : Option Nat := none
  successful : Option Nat := none
  failed : Option Nat := none
  results : List ItemResult := []
deriving Repr, DecidableEq

/-- truthy models JavaScript truthiness of an optional string field
(undefined, null and the empty string are falsy). -/
def truthy (s : Option String) : Bool :=
  match s with
  | none => false
  | some s => !(s == "")

/-- successCount counts the results with success true, as in
results.filter((r) => r.success).length. -/
def successCount (rs : List ItemResult) : Nat :=
  (rs.filter (fun r => r.success)).length

/-- templateTypeOf models certificate.templateType || "sistec". -/
def templateTypeOf (c : Certificate) : String :=
  if c.templateType == "" then "sistec" else c.templateType

/-- pendingParticipants models the pending-generation query of
certificateHelper.js lines 66-80: participants of the event whose
certificateSent flag is not true, optionally restricted to an explicit
non-empty id list. -/
def pendingParticipants (db : DB) (eventId : Nat)
    (participantIds : Option (List Nat)) : List Participant :=
  match participantIds with
  | some ids =>
      if ids.isEmpty then
        db.participants.filter (fun p => p.eventId == eventId && !p.certificateSent)
      else
        db.participants.filter
          (fun p => ids.contains p.id && p.eventId == eventId && !p.certificateSent)
  | none =>
      db.participants.filter (fun p => p.eventId == eventId && !p.certificateSent)

/-- GenLoopStH is the state threaded through the generation loop of
certificateHelper.js lines 114-163: the template being appended to and the
accumulated results array. -/
structure GenLoopStH where
  cert : Certificate
  results : List ItemResult
deriving Repr, DecidableEq

/-- genStepH is one iteration of the generation loop of certificateHelper.js
lines 114-163: on render success a fresh GenerationRecord is appended
(generatedAt = now, sentAt = null); on failure only a failure result is
recorded and the loop continues. -/
def genStepH (gen : Nat → String → CertResult) (templateType : String)
    (now : Int) (st : GenLoopStH) (p : Participant) : GenLoopStH :=
  if (gen p.id templateType).success then
    { cert :=
        { st.cert with
          generatedCertificates :=
            st.cert.generatedCertificates ++
              [{ participantId := p.id
                 certificateUrl := (gen p.id templateType).certificateUrl
                 certificatePath := some (gen p.id templateType).certificatePath
                 generatedAt := some now
                 sentAt := none }] }
      results :=
        st.results ++
          [{ participantId := p.id, participantName := p.name, success := true }] }
  else
    { st with
      results :=
        st.results ++
          [{ participantId := p.id
             participantName := p.name
             success := false
             error := some (if (gen p.id templateType).message == ""
                            then "Certificate generation failed"
                            else (gen p.id templateType).message) }] }

/-- genFoldH runs the generation loop of certificateHelper.js over the pending
participants, starting from the fetched template and an empty results
array. -/
def genFoldH (gen : Nat → String → CertResult) (templateType : String)
    (now : Int) (cert : Certificate) (l : List Participant) : GenLoopStH :=
  l.foldl (genStepH gen templateType now) { cert := cert, results := [] }

/-- generateCertificatesForNewParticipants embeds
certificateHelper.js lines 12-192 (the Generation Step of the helper):
event lookup, IST date gate, pending-participant query, template lookup,
per-participant render loop, single template save, aggregate result. -/
def generateCertificatesForNewParticipants (db : DB) (eventId : Nat)
    (participantIds : Option (List Nat)) (gen : Nat → String → CertResult)
    (now : Int) : StepResult × DB :=
  match db.findEvent eventId with
  | none => ({ success := false, message := "Event not found" }, db)
  | some event =>
    if getISTDate now < getISTDate event.date then
      ({ success := true
         message := "Event date is in the future. Certificates will be generated automatically at 10:30 AM on event day."
         scheduled := some true }, db)
    else
      if (pendingParticipants db eventId participantIds).isEmpty then
        ({ success := true
           message := "No new participants found or all have already received certificates"
           count := some 0 }, db)
      else
        match db.findCertificate event.id with
        | none =>
          ({ success := false
             message := "Certificate template not found for this event" }, db)
        | some certificate =>
          ({ success := true
             message := "Certificates generated for " ++
               toString (successCount (genFoldH gen (templateTypeOf certificate) now
                 certificate (pendingParticipants db eventId participantIds)).results) ++
               " participant(s). Emails will be sent at 11:55 AM."
             total := some (genFoldH gen (templateTypeOf certificate) now certificate
               (pendingParticipants db eventId participantIds)).results.length
             successful := some (successCount (genFoldH gen (templateTypeOf certificate)
               now certificate (pendingParticipants db eventId participantIds)).results)
             failed := some ((genFoldH gen (templateTypeOf certificate) now certificate
                 (pendingParticipants db eventId participantIds)).results.length -
               successCount (genFoldH gen (templateTypeOf certificate) now certificate
                 (pendingParticipants db eventId participantIds)).results)
             results := (genFoldH gen (templateTypeOf certificate) now certificate
               (pendingParticipants db eventId participantIds)).results
             scheduled := some false },
           db.saveCertificate (genFoldH gen (templateTypeOf certificate) now certificate
             (pendingParticipants db eventId participantIds)).cert)

/-- unsentParticipants models the dispatch query of certificateHelper.js
lines 219-222: participants of the event whose certificateSent flag is not
true. -/
def unsentParticipants (db : DB) (eventId : Nat) : List Participant :=
  db.participants.filter (fun p => p.eventId == eventId && !p.certificateSent)

/-- SendLoopStH is the state threaded through the dispatch loop of
certificateHelper.js lines 243-308; emails records, in order, the
participant ids handed to emailService.sendCertificateEmail. -/
structure SendLoopStH where
  cert : Certificate
  results : List ItemResult
  sentCount : Nat
  emails : List Nat
deriving Repr, DecidableEq

/-- sendStepH is one iteration of the dispatch loop of certificateHelper.js
lines 243-308: it looks up the participant's generated record, skips with a
failure result when the record or its path is missing, otherwise emails the
certificate; on email success only the record's sentAt is set (this variant
does not touch the participant document). -/
def sendStepH (email : Nat → EmailResult) (now : Int) (st : SendLoopStH)
    (p : Participant) : SendLoopStH :=
  match st.cert.generatedCertificates.find? (fun c => c.participantId == p.id) with
  | none =>
    { st with
      results :=
        st.results ++
          [{ participantId := p.id, participantName := p.name, success := false
             error := some "Certificate not generated" }] }
  | some generatedCert =>
    if !(truthy generatedCert.certificatePath) then
      { st with
        results :=
          st.results ++
            [{ participantId := p.id, participantName := p.name, success := false
               error := some "Certificate not generated" }] }
    else
      if (email p.id).success then
        { cert :=
            { st.cert with
              generatedCertificates :=
                updateFirst (fun c => c.participantId == p.id)
                  (fun c => { c with sentAt := some now })
                  st.cert.generatedCertificates }
          results :=
            st.results ++
              [{ participantId := p.id, participantName := p.name, success := true }]
          sentCount := st.sentCount + 1
          emails := st.emails ++ [p.id] }
      else
        { st with
          results :=
            st.results ++
              [{ participantId := p.id, participantName := p.name, success := false
                 error := some (if (email p.id).message == "" then "Email sending failed"
                                else (email p.id).message) }]
          emails := st.emails ++ [p.id] }

/-- sendFoldH runs the dispatch loop of certificateHelper.js over the queried
participants. -/
def sendFoldH (email : Nat → EmailResult) (now : Int) (cert : Certificate)
    (l : List Participant) : SendLoopStH :=
  l.foldl (sendStepH email now) { cert := cert, results := [], sentCount := 0, emails := [] }

/-- sendGeneratedCertificates embeds certificateHelper.js lines 198-335 (the
Dispatch Step of the helper): event lookup, template lookup (before the
participant query), query of participants with certificateSent not true,
per-participant email loop, single template save. The third component of
the result is the ordered list of participant ids that were emailed. -/
def sendGeneratedCertificates (db : DB) (eventId : Nat)
    (email : Nat → EmailResult) (now : Int) : StepResult × DB × List Nat :=
  match db.findEvent eventId with
  | none => ({ success := false, message := "Event not found" }, db, [])
  | some event =>
    match db.findCertificate event.id with
    | none =>
      ({ success := false
         message := "Certificate template not found for this event" }, db, [])
    | some certificate =>
      if (unsentParticipants db eventId).isEmpty then
        ({ success := true
           message := "No participants found with unsent certificates"
           count := some 0 }, db, [])
      else
        ({ success := true
           message := "Certificates sent to " ++
             toString (sendFoldH email now certificate (unsentParticipants db eventId)).sentCount ++
             " participant(s)"
           total := some (sendFoldH email now certificate (unsentParticipants db eventId)).results.length
           successful := some (sendFoldH email now certificate (unsentParticipants db eventId)).sentCount
           failed := some ((sendFoldH email now certificate (unsentParticipants db eventId)).results.length -
             (sendFoldH email now certificate (unsentParticipants db eventId)).sentCount)
           results := (sendFoldH email now certificate (unsentParticipants db eventId)).results },
         db.saveCertificate (sendFoldH email now certificate (unsentParticipants db eventId)).cert,
         (sendFoldH email now certificate (unsentParticipants db eventId)).emails)

/-- GenResult models the {total, generated} object returned by
certificateScheduler.js generateCertificatesForEvent. -/
structure GenResult where
  total : Nat
  generated : Nat
deriving Repr, DecidableEq

/-- SendResult models the {total, sent} object returned by
certificateScheduler.js sendCertificatesForEvent. -/
structure SendResult where
  total : Nat
  sent : Nat
deriving Repr, DecidableEq

/-- alreadyGeneratedIds, from certificateScheduler.js lines 270-274: the ids of
participants that have a record with generatedAt set. -/
def alreadyGeneratedIds (cert : Certificate) : List Nat :=
  (cert.generatedCertificates.filter (fun g => g.generatedAt.isSome)).map
    (fun g => g.participantId)

/-- participantsForEvent, from certificateScheduler.js lines 276-288: when the
event carries a participant id list the participants are fetched by id,
otherwise by eventId. -/
def participantsForEvent (db : DB) (event : Event) : List Participant :=
  if event.participants.isEmpty then
    db.participants.filter (fun p => p.eventId == event.id)
  else
    db.participants.filter (fun p => event.participants.contains p.id)

/-- toGenerate, from certificateScheduler.js lines 290-292: the event's
participants that do not yet have a record with generatedAt set. -/
def toGenerate (db : DB) (event : Event) (cert : Certificate) : List Participant :=
  (participantsForEvent db event).filter
    (fun p => !((alreadyGeneratedIds cert).contains p.id))

/-- GenLoopStS is the state threaded through the generation loop of
certificateScheduler.js lines 305-357. -/
structure GenLoopStS where
  records : List GenerationRecord
  results : List ItemResult
deriving Repr, DecidableEq

/-- genStepS is one iteration of the generation loop of
certificateScheduler.js lines 305-357: on render success the record for
the participant is upserted (pushed if absent, otherwise the first record
with that id is merged in place, preserving its sentAt); on failure only a
failure result is recorded. -/
def genStepS (gen : Nat → String → CertResult) (templateType : String)
    (now : Int) (st : GenLoopStS) (p : Participant) : GenLoopStS :=
  if (gen p.id templateType).success then
    { records :=
        if st.records.any (fun g => g.participantId == p.id) then
          updateFirst (fun g => g.participantId == p.id)
            (fun g =>
              { g with
                certificateUrl := (gen p.id templateType).certificateUrl
                certificatePath := some (gen p.id templateType).certificatePath
                generatedAt := some now })
            st.records
        else
          st.records ++
            [{ participantId := p.id
               certificateUrl := (gen p.id templateType).certificateUrl
               certificatePath := some (gen p.id templateType).certificatePath
               generatedAt := some now
               sentAt := none }]
      results := st.results ++ [{ participantId := p.id, success := true }] }
  else
    { st with
      results :=
        st.results ++
          [{ participantId := p.id, success := false
             error := some (gen p.id templateType).message }] }

/-- genFoldS runs the generation loop of certificateScheduler.js over the
toGenerate participants, starting from the template's records. -/
def genFoldS (gen : Nat → String → CertResult) (templateType : String)
    (now : Int) (tmpl : Certificate) (l : List Participant) : GenLoopStS :=
  l.foldl (genStepS gen templateType now)
    { records := tmpl.generatedCertificates, results := [] }

/-- generateCertificatesForEvent embeds certificateScheduler.js lines 249-397
(the 15:50 generation-only step): template lookup, the already-generated id
set, the toGenerate filter, the per-participant upsert loop, a single
template save, and the {total, generated} aggregate. The ActivityLog write
and socket emit are notification-sink effects outside the data model. -/
def generateCertificatesForEvent (db : DB) (event : Event)
    (gen : Nat → String → CertResult) (now : Int) : GenResult × DB :=
  match db.findCertificate event.id with
  | none => ({ total := 0, generated := 0 }, db)
  | some certificateTemplate =>
    if (toGenerate db event certificateTemplate).isEmpty then
      ({ total := 0, generated := 0 }, db)
    else
      ({ total := (genFoldS gen (templateTypeOf certificateTemplate) now
           certificateTemplate (toGenerate db event certificateTemplate)).results.length
         generated := successCount (genFoldS gen (templateTypeOf certificateTemplate) now
           certificateTemplate (toGenerate db event certificateTemplate)).results },
       db.saveCertificate
         { certificateTemplate with
           generatedCertificates := (genFoldS gen (templateTypeOf certificateTemplate) now
             certificateTemplate (toGenerate db event certificateTemplate)).records })

/-- pendingSends, from certificateScheduler.js lines 420-422: records with
generatedAt set and sentAt absent. -/
def pendingSends (cert : Certificate) : List GenerationRecord :=
  cert.generatedCertificates.filter
    (fun g => g.generatedAt.isSome && g.sentAt.isNone)

/-- SendLoopStS is the state threaded through the dispatch loop of
certificateScheduler.js lines 433-455: the template's records, the
participant collection (Participant.updateOne persists immediately,
per item), the success counter, and the ordered list of emailed ids. -/
structure SendLoopStS where
  records : List GenerationRecord
  parts : List Participant
  sentCount : Nat
  emails : List Nat
deriving Repr, DecidableEq

/-- sendStepS is one iteration of the dispatch loop of
certificateScheduler.js lines 433-455: the pending record's participant is
emailed; on success the record's sentAt is set and the participant's
certificateSent flag is set to true by an immediate updateOne (note: no
certificateSentAt is written); on failure nothing is recorded. -/
def sendStepS (email : Nat → EmailResult) (now : Int) (st : SendLoopStS)
    (g : GenerationRecord) : SendLoopStS :=
  if (email g.participantId).success then
    { records :=
        updateFirst
          (fun r => r.participantId == g.participantId &&
            r.generatedAt.isSome && r.sentAt.isNone)
          (fun r => { r with sentAt := some now }) st.records
      parts :=
        updateFirst (fun p => p.id == g.participantId)
          (fun p => { p with certificateSent := true }) st.parts
      sentCount := st.sentCount + 1
      emails := st.emails ++ [g.participantId] }
  else
    { st with emails := st.emails ++ [g.participantId] }

/-- sendFoldS runs the dispatch loop of certificateScheduler.js over the
pending records, starting from the template's records and the live
participant collection. -/
def sendFoldS (email : Nat → EmailResult) (now : Int) (tmpl : Certificate)
    (parts : List Participant) (l : List GenerationRecord) : SendLoopStS :=
  l.foldl (sendStepS email now)
    { records := tmpl.generatedCertificates, parts := parts, sentCount := 0, emails := [] }

/-- sendCertificatesForEvent embeds certificateScheduler.js lines 400-493
(the 16:00 dispatch-only step): template lookup, the pendingSends filter
(generatedAt set, sentAt absent — the participant's certificateSent flag is
not consulted), the per-record email loop with immediate participant
updates, a single template save at the end, and the {total, sent}
aggregate. The third component is the ordered list of emailed ids. -/
def sendCertificatesForEvent (db : DB) (event : Event)
    (email : Nat → EmailResult) (now : Int) : SendResult × DB × List Nat :=
  match db.findCertificate event.id with
  | none => ({ total := 0, sent := 0 }, db, [])
  | some certificateTemplate =>
    if (pendingSends certificateTemplate).isEmpty then
      ({ total := 0, sent := 0 }, db, [])
    else
      ({ total := (pendingSends certificateTemplate).length
         sent := (sendFoldS email now certificateTemplate db.participants
           (pendingSends certificateTemplate)).sentCount },
       DB.saveCertificate
         { db with
           participants := (sendFoldS email now certificateTemplate db.participants
             (pendingSends certificateTemplate)).parts }
         { certificateTemplate with
           generatedCertificates := (sendFoldS email now certificateTemplate
             db.participants (pendingSends certificateTemplate)).records },
       (sendFoldS email now certificateTemplate db.participants
         (pendingSends certificateTemplate)).emails)

/-- setLocalHours models Date.prototype.setHours(hh, mm, 0, 0) on an instant,
for a timezone with fixed offset off: the instant is moved to hh:mm local
time on its own local civil day. -/
def setLocalHours (t off hh mm : Int) : Int :=
  ((t + off).fdiv msPerDay) * msPerDay - off + hh * 3600000 + mm * 60000

/-- scheduleEventCertificateGeneration embeds certificateScheduler.js lines
496-539 (the Per-Event One-Shot Trigger): the target is 23:59 local time
on the event date; when the target is strictly before now the function
declines and returns none (a null handle), otherwise it schedules a timer
with delay target minus now and returns it. -/
def scheduleEventCertificateGeneration (eventDate now off : Int) : Option Int :=
  if setLocalHours eventDate off 23 59 < now then none
  else some (setLocalHours eventDate off 23 59 - now)

/-- generateCertificatesForNewParticipantsRun models the outermost try/catch
of certificateHelper.js lines 16-191: when storage signals a fatal error
(modelled as storage = some message, making the first awaited query throw)
the catch converts it into a structured failure result. -/
def generateCertificatesForNewParticipantsRun (storage : Option String)
    (db : DB) (eventId : Nat) (participantIds : Option (List Nat))
    (gen : Nat → String → CertResult) (now : Int) : StepResult × DB :=
  match storage with
  | none => generateCertificatesForNewParticipants db eventId participantIds gen now
  | some e => ({ success := false, message := e }, db)

/-- sendGeneratedCertificatesRun models the outermost try/catch of
certificateHelper.js lines 199-334: a fatal storage error is caught and
returned as a structured failure result. -/
def sendGeneratedCertificatesRun (storage : Option String) (db : DB)
    (eventId : Nat) (email : Nat → EmailResult) (now : Int) :
    StepResult × DB × List Nat :=
  match storage with
  | none => sendGeneratedCertificates db eventId email now
  | some e => ({ success := false, message := e }, db, [])

/-- generateCertificatesForEventRun models the outermost try/catch of
certificateScheduler.js lines 250-396: the catch block at lines 390-396
re-throws, so a fatal storage error propagates to the caller as an
exception. -/
def generateCertificatesForEventRun (storage : Option String) (db : DB)
    (event : Event) (gen : Nat → String → CertResult) (now : Int) :
    Except String (GenResult × DB) :=
  match storage with
  | none => .ok (generateCertificatesForEvent db event gen now)
  | some e => .error e

/-- sendCertificatesForEventRun models the outermost try/catch of
certificateScheduler.js lines 401-492: the catch block at lines 486-492
re-throws, so a fatal storage error propagates to the caller as an
exception. -/
def sendCertificatesForEventRun (storage : Option String) (db : DB)
    (event : Event) (email : Nat → EmailResult) (now : Int) :
    Except String (SendResult × DB × List Nat) :=
  match storage with
  | none => .ok (sendCertificatesForEvent db event email now)
  | some e => .error e

/-- hasGenRec states that the record list contains a record for the given
participant with generatedAt set. -/
def hasGenRec (rs : List GenerationRecord) (pid : Nat) : Bool :=
  rs.any (fun g => g.participantId == pid && g.generatedAt.isSome)

/-- recordPids lists the participant ids of a template's records; at most one
GenerationRecord per participant means this list has no duplicates. -/
def recordPids (c : Certificate) : List Nat :=
  c.generatedCertificates.map (fun g => g.participantId)

/-- evA is a concrete event dated at the epoch, used by concrete runs. -/
def evA : Event := { id := 1 }

/-- genOkAll is a render oracle that always succeeds. -/
def genOkAll : Nat → String → CertResult :=
  fun _ _ => { success := true, certificateUrl := "u", certificatePath := "p" }

/-- genFailAll is a render oracle that always fails. -/
def genFailAll : Nat → String → CertResult := fun _ _ => { success := false }

/-- emOkAll is an email oracle that always succeeds. -/
def emOkAll : Nat → EmailResult := fun _ => { success := true }

/-- dbC1 holds one participant (flag false, no certificateSentAt) with one
pending generated record, ready for a dispatch run. -/
def dbC1 : DB :=
  { events := [evA]
    participants := [{ id := 1, eventId := 1 }]
    certificates := [{ eventId := 1
                       generatedCertificates := [{ participantId := 1, generatedAt := some 2 }] }] }

/-- gC1 is the pending record of dbC1. -/
def gC1 : GenerationRecord := { participantId := 1, generatedAt := some 2 }

/-- stC1 is the dispatch-loop state at the start of a run over dbC1. -/
def stC1 : SendLoopStS :=
  { records := [gC1]
    parts := [{ id := 1, eventId := 1 }]
    sentCount := 0
    emails := [] }

/-- dbC2 holds two pending participants and an empty template. -/
def dbC2 : DB :=
  { events := [evA]
    participants := [{ id := 1, eventId := 1 }, { id := 2, eventId := 1 }]
    certificates := [{ eventId := 1 }] }

/-- dbC3 holds a participant whose certificateSent flag is true while their
record is still pending, plus a second record whose sentAt is set. -/
def dbC3 : DB :=
  { events := [evA]
    participants := [{ id := 1, eventId := 1, certificateSent := true }]
    certificates := [{ eventId := 1
                       generatedCertificates :=
                         [{ participantId := 1, generatedAt := some 2 },
                          { participantId := 3, generatedAt := some 2, sentAt := some 4 }] }] }

/-- tmplC3 is the certificate template stored in dbC3. -/
def tmplC3 : Certificate :=
  { eventId := 1
    generatedCertificates :=
      [{ participantId := 1, generatedAt := some 2 },
       { participantId := 3, generatedAt := some 2, sentAt := some 4 }] }

/-- dbC4 holds a participant already flagged as sent and an empty template. -/
def dbC4 : DB :=
  { events := [evA]
    participants := [{ id := 1, eventId := 1, certificateSent := true }]
    certificates := [{ eventId := 1 }] }

/-- dbC6 holds three pending participants and an empty template. -/
def dbC6 : DB :=
  { events := [evA]
    participants := [{ id := 1, eventId := 1 }, { id := 2, eventId := 1 },
                     { id := 3, eventId := 1 }]
    certificates := [{ eventId := 1 }] }

/-- genC6 is a render oracle failing exactly for participant 2. -/
def genC6 : Nat → String → CertResult :=
  fun pid _ =>
    if pid == 2 then { success := false }
    else { success := true, certificateUrl := "u", certificatePath := "p" }

/-- dbC7 holds an event with no template and no pending participant (its only
participant already has certificateSent true). -/
def dbC7 : DB :=
  { events := [evA]
    participants := [{ id := 7, eventId := 1, certificateSent := true }]
    certificates := [] }

/-- dbC7b holds an event with no template but one pending participant. -/
def dbC7b : DB :=
  { events := [evA]
    participants := [{ id := 7, eventId := 1 }]
    certificates := [] }

/-- dbC10 holds an event with no template and no participants at all. -/
def dbC10 : DB := { events := [evA] }

theorem mem_updateFirst_of_find? {q : α → Bool} {f : α → α} :
    ∀ {l : List α} {x : α}, l.find? q = some x → f x ∈ updateFirst q f l := by
  intro l
  induction l with
  | nil => intro x h; simp at h
  | cons a as ih =>
    intro x h
    cases hq : q a with
    | true =>
      rw [List.find?_cons_of_pos _ hq] at h
      cases h
      simp [updateFirst, hq]
    | false =>
      rw [List.find?_cons_of_neg _ (by simp [hq])] at h
      simp [updateFirst, hq]
      exact Or.inr (ih h)

theorem find?_updateFirst_const {q : α → Bool} {b : α} (hb : q b = true) :
    ∀ {l : List α} {x : α}, l.find? q = some x →
      (updateFirst q (fun _ => b) l).find? q = some b := by
  intro l
  induction l with
  | nil => intro x h; simp at h
  | cons a as ih =>
    intro x h
    cases hq : q a with
    | true => simp [updateFirst, hq, List.find?_cons_of_pos _ hb]
    | false =>
      rw [List.find?_cons_of_neg _ (by simp [hq])] at h
      simp only [updateFirst, hq, if_false, Bool.false_eq_true]
      rw [List.find?_cons_of_neg _ (by simp [hq])]
      exact ih h

theorem map_updateFirst {m : α → β} {f : α → α} (hf : ∀ a, m (f a) = m a)
    (q : α → Bool) : ∀ l : List α, (updateFirst q f l).map m = l.map m := by
  intro l
  induction l with
  | nil => rfl
  | cons a as ih =>
    cases hq : q a with
    | true => simp [updateFirst, hq, hf]
    | false => simp [updateFirst, hq, ih]

theorem any_updateFirst_of_imp {q pr : α → Bool} {f : α → α}
    (hf : ∀ a, pr a = true → pr (f a) = true) :
    ∀ {l : List α}, l.any pr = true → (updateFirst q f l).any pr = true := by
  intro l
  induction l with
  | nil => intro h; simp at h
  | cons a as ih =>
    intro h
    rw [List.any_cons] at h
    cases hq : q a with
    | true =>
      simp only [updateFirst, hq, if_true, List.any_cons]
      rcases Bool.or_eq_true_iff.mp h with h1 | h2
      · exact Bool.or_eq_true_iff.mpr (Or.inl (hf a h1))
      · exact Bool.or_eq_true_iff.mpr (Or.inr h2)
    | false =>
      simp only [updateFirst, hq, List.any_cons, Bool.false_eq_true, if_false]
      rcases Bool.or_eq_true_iff.mp h with h1 | h2
      · exact Bool.or_eq_true_iff.mpr (Or.inl h1)
      · exact Bool.or_eq_true_iff.mpr (Or.inr (ih h2))

theorem any_updateFirst_of_match {q pr : α → Bool} {f : α → α}
    (hf : ∀ a, q a = true → pr (f a) = true) :
    ∀ {l : List α}, l.any q = true → (updateFirst q f l).any pr = true := by
  intro l
  induction l with
  | nil => intro h; simp at h
  | cons a as ih =>
    intro h
    cases hq : q a with
    | true =>
      simp only [updateFirst, hq, if_true, List.any_cons]
      exact Bool.or_eq_true_iff.mpr (Or.inl (hf a hq))
    | false =>
      rw [List.any_cons] at h
      rcases Bool.or_eq_true_iff.mp h with h1 | h2
      · rw [hq] at h1; exact absurd h1 (by simp)
      · simp only [updateFirst, hq, Bool.false_eq_true, if_false, List.any_cons]
        exact Bool.or_eq_true_iff.mpr (Or.inr (ih h2))

theorem not_mem_map_of_not_any {l : List GenerationRecord} {pid : Nat}
    (h : l.any (fun g => g.participantId == pid) = false) :
    pid ∉ l.map (fun g => g.participantId) := by
  intro hmem
  rcases List.mem_map.mp hmem with ⟨g, hg, hgid⟩
  have : l.any (fun g => g.participantId == pid) = true :=
    List.any_eq_true.mpr ⟨g, hg, by simp [hgid]⟩
  rw [h] at this
  exact absurd this (by simp)

theorem findCertificate_saveCertificate {db : DB} {c0 cert : Certificate}
    (h : db.findCertificate cert.eventId = some c0) :
    (db.saveCertificate cert).findCertificate cert.eventId = some cert := by
  unfold DB.findCertificate DB.saveCertificate
  unfold DB.findCertificate at h
  exact find?_updateFirst_const (by simp) h

theorem sendStepS_emails (email : Nat → EmailResult) (now : Int)
    (st : SendLoopStS) (g : GenerationRecord) :
    (sendStepS email now st g).emails = st.emails ++ [g.participantId] := by
  unfold sendStepS
  split <;> rfl

theorem sendFoldS_emails_of (email : Nat → EmailResult) (now : Int) :
    ∀ (l : List GenerationRecord) (st : SendLoopStS),
      (l.foldl (sendStepS email now) st).emails =
        st.emails ++ l.map (fun g => g.participantId) := by
  intro l
  induction l with
  | nil => intro st; simp
  | cons g gs ih =>
    intro st
    rw [List.foldl_cons, ih, sendStepS_emails]
    simp

theorem sendStepH_emails_sub (email : Nat → EmailResult) (now : Int)
    (st : SendLoopStH) (p : Participant) :
    ∀ pid, pid ∈ (sendStepH email now st p).emails → pid ∈ st.emails ∨ pid = p.id := by
  intro pid h
  unfold sendStepH at h
  split at h
  · exact Or.inl h
  · split at h
    · exact Or.inl h
    · split at h <;>
        (simp only [List.mem_append, List.mem_singleton] at h; exact h)

theorem sendFoldH_emails_sub (email : Nat → EmailResult) (now : Int) :
    ∀ (l : List Participant) (st : SendLoopStH) (pid : Nat),
      pid ∈ (l.foldl (sendStepH email now) st).emails →
      pid ∈ st.emails ∨ ∃ p ∈ l, p.id = pid := by
  intro l
  induction l with
  | nil =>
    intro st pid h
    exact Or.inl h
  | cons p ps ih =>
    intro st pid h
    rw [List.foldl_cons] at h
    rcases ih _ pid h with h1 | h2
    · rcases sendStepH_emails_sub email now st p pid h1 with h3 | h3
      · exact Or.inl h3
      · exact Or.inr ⟨p, by simp, h3.symm⟩
    · obtain ⟨x, hx, hxe⟩ := h2
      exact Or.inr ⟨x, List.mem_cons_of_mem _ hx, hxe⟩

theorem genStepS_hasGenRec_mono (gen : Nat → String → CertResult)
    (tt : String) (now : Int) (st : GenLoopStS) (p : Participant) (pid : Nat)
    (h : hasGenRec st.records pid = true) :
    hasGenRec (genStepS gen tt now st p).records pid = true := by
  unfold genStepS hasGenRec at *
  split
  · dsimp only
    split
    · exact any_updateFirst_of_imp
        (by
          intro a ha
          rcases Bool.and_eq_true_iff.mp ha with ⟨h1, _⟩
          simp [h1])
        h
    · rw [List.any_append]
      exact Bool.or_eq_true_iff.mpr (Or.inl h)
  · exact h

theorem genStepS_hasGenRec_self (gen : Nat → String → CertResult)
    (tt : String) (now : Int) (st : GenLoopStS) (p : Participant)
    (h : (gen p.id tt).success = true) :
    hasGenRec (genStepS gen tt now st p).records p.id = true := by
  unfold genStepS hasGenRec
  rw [if_pos h]
  dsimp only
  split
  case isTrue hany =>
    exact any_updateFirst_of_match
      (by
        intro a ha
        simp [ha])
      hany
  case isFalse hany =>
    rw [List.any_append]
    refine Bool.or_eq_true_iff.mpr (Or.inr ?_)
    simp

theorem genFoldS_hasGenRec_mono (gen : Nat → String → CertResult)
    (tt : String) (now : Int) :
    ∀ (l : List Participant) (st : GenLoopStS) (pid : Nat),
      hasGenRec st.records pid = true →
      hasGenRec (l.foldl (genStepS gen tt now) st).records pid = true := by
  intro l
  induction l with
  | nil => intro st pid h; exact h
  | cons p ps ih =>
    intro st pid h
    rw [List.foldl_cons]
    exact ih _ pid (genStepS_hasGenRec_mono gen tt now st p pid h)

theorem genFoldS_hasGenRec_covers (gen : Nat → String → CertResult)
    (tt : String) (now : Int) :
    ∀ (l : List Participant) (st : GenLoopStS),
      (∀ p ∈ l, (gen p.id tt).success = true) →
      ∀ p ∈ l, hasGenRec (l.foldl (genStepS gen tt now) st).records p.id = true := by
  intro l
  induction l with
  | nil => intro st _ p hp; simp at hp
  | cons q qs ih =>
    intro st hall p hp
    rw [List.foldl_cons]
    rcases List.mem_cons.mp hp with h1 | h2
    · subst h1
      exact genFoldS_hasGenRec_mono gen tt now qs _ p.id
        (genStepS_hasGenRec_self gen tt now st p (hall p (by simp)))
    · exact ih _ (fun r hr => hall r (List.mem_cons_of_mem _ hr)) p h2

theorem genStepS_pids_nodup (gen : Nat → String → CertResult)
    (tt : String) (now : Int) (st : GenLoopStS) (p : Participant)
    (h : (st.records.map (fun g => g.participantId)).Nodup) :
    ((genStepS gen tt now st p).records.map (fun g => g.participantId)).Nodup := by
  unfold genStepS
  split
  · dsimp only
    split
    case isTrue hany =>
      rw [map_updateFirst (by intro a; rfl)]
      exact h
    case isFalse hany =>
      rw [List.map_append]
      rw [List.nodup_append]
      refine ⟨h, by simp, ?_⟩
      intro x hx
      simp only [List.map_cons, List.map_nil, List.mem_singleton]
      intro hx1
      subst hx1
      exact not_mem_map_of_not_any (Bool.eq_false_iff.mpr hany) hx
  · exact h

theorem genFoldS_pids_nodup (gen : Nat → String → CertResult)
    (tt : String) (now : Int) :
    ∀ (l : List Participant) (st : GenLoopStS),
      (st.records.map (fun g => g.participantId)).Nodup →
      ((l.foldl (genStepS gen tt now) st).records.map (fun g => g.participantId)).Nodup := by
  intro l
  induction l with
  | nil => intro st h; exact h
  | cons p ps ih =>
    intro st h
    rw [List.foldl_cons]
    exact ih _ (genStepS_pids_nodup gen tt now st p h)

theorem mem_alreadyGeneratedIds {c : Certificate} {pid : Nat} :
    pid ∈ alreadyGeneratedIds c ↔ hasGenRec c.generatedCertificates pid = true := by
  unfold alreadyGeneratedIds hasGenRec
  rw [List.any_eq_true]
  constructor
  · intro h
    rcases List.mem_map.mp h with ⟨g, hg, hid⟩
    rcases List.mem_filter.mp hg with ⟨hmem, hgen⟩
    exact ⟨g, hmem, by simp [hid, hgen]⟩
  · intro ⟨g, hmem, hprop⟩
    rcases Bool.and_eq_true_iff.mp hprop with ⟨h1, h2⟩
    refine List.mem_map.mpr ⟨g, List.mem_filter.mpr ⟨hmem, h2⟩, ?_⟩
    simpa using h1

theorem generateS_eq_of_empty {db : DB} {event : Event} {tmpl : Certificate}
    (gen : Nat → String → CertResult) (now : Int)
    (hfind : db.findCertificate event.id = some tmpl)
    (h : (toGenerate db event tmpl).isEmpty = true) :
    generateCertificatesForEvent db event gen now = ({ total := 0, generated := 0 }, db) := by
  unfold generateCertificatesForEvent
  rw [hfind]
  dsimp only
  rw [if_pos h]

theorem generateS_eq_of_ne {db : DB} {event : Event} {tmpl : Certificate}
    (gen : Nat → String → CertResult) (now : Int)
    (hfind : db.findCertificate event.id = some tmpl)
    (h : ¬ (toGenerate db event tmpl).isEmpty = true) :
    generateCertificatesForEvent db event gen now =
      ({ total := (genFoldS gen (templateTypeOf tmpl) now tmpl
           (toGenerate db event tmpl)).results.length
         generated := successCount (genFoldS gen (templateTypeOf tmpl) now tmpl
           (toGenerate db event tmpl)).results },
       db.saveCertificate
         { tmpl with
           generatedCertificates := (genFoldS gen (templateTypeOf tmpl) now tmpl
             (toGenerate db event tmpl)).records }) := by
  unfold generateCertificatesForEvent
  rw [hfind]
  dsimp only
  rw [if_neg h]

theorem generateH_eq_main {db : DB} {eventId : Nat} {o : Option (List Nat)}
    {event : Event} {cert : Certificate}
    (gen : Nat → String → CertResult) (now : Int)
    (hev : db.findEvent eventId = some event)
    (hfut : ¬ getISTDate now < getISTDate event.date)
    (hne : ¬ (pendingParticipants db eventId o).isEmpty = true)
    (hcert : db.findCertificate event.id = some cert) :
    generateCertificatesForNewParticipants db eventId o gen now =
      ({ success := true
         message := "Certificates generated for " ++
           toString (successCount (genFoldH gen (templateTypeOf cert) now cert
             (pendingParticipants db eventId o)).results) ++
           " participant(s). Emails will be sent at 11:55 AM."
         total := some (genFoldH gen (templateTypeOf cert) now cert
           (pendingParticipants db eventId o)).results.length
         successful := some (successCount (genFoldH gen (templateTypeOf cert) now cert
           (pendingParticipants db eventId o)).results)
         failed := some ((genFoldH gen (templateTypeOf cert) now cert
             (pendingParticipants db eventId o)).results.length -
           successCount (genFoldH gen (templateTypeOf cert) now cert
             (pendingParticipants db eventId o)).results)
         results := (genFoldH gen (templateTypeOf cert) now cert
           (pendingParticipants db eventId o)).results
         scheduled := some false },
       db.saveCertificate (genFoldH gen (templateTypeOf cert) now cert
         (pendingParticipants db eventId o)).cert) := by
  unfold generateCertificatesForNewParticipants
  rw [hev]
  dsimp only
  rw [if_neg hfut, if_neg hne, hcert]

theorem sendCertificatesForEvent_emails {db : DB} {event : Event} {tmpl : Certificate}
    (email : Nat → EmailResult) (now : Int)
    (hfind : db.findCertificate event.id = some tmpl) :
    (sendCertificatesForEvent db event email now).2.2 =
      (pendingSends tmpl).map (fun g => g.participantId) := by
  unfold sendCertificatesForEvent
  rw [hfind]
  dsimp only
  by_cases hemp : (pendingSends tmpl).isEmpty = true
  · rw [if_pos hemp]
    rw [List.isEmpty_iff.mp hemp]
    rfl
  · rw [if_neg hemp]
    unfold sendFoldS
    rw [sendFoldS_emails_of]
    rfl

theorem sendH_emails_sub {db : DB} {eventId : Nat}
    (email : Nat → EmailResult) (now : Int) (pid : Nat)
    (h : pid ∈ (sendGeneratedCertificates db eventId email now).2.2) :
    ∃ p ∈ unsentParticipants db eventId, p.id = pid := by
  unfold sendGeneratedCertificates at h
  cases hev : db.findEvent eventId with
  | none => rw [hev] at h; simp at h
  | some event =>
    rw [hev] at h
    dsimp only at h
    cases hc : db.findCertificate event.id with
    | none => rw [hc] at h; simp at h
    | some cert =>
      rw [hc] at h
      dsimp only at h
      by_cases hemp : (unsentParticipants db eventId).isEmpty = true
      · rw [if_pos hemp] at h; simp at h
      · rw [if_neg hemp] at h
        dsimp only at h
        unfold sendFoldH at h
        rcases sendFoldH_emails_sub email now _ _ pid h with h1 | h2
        · simp at h1
        · exact h2

/-- Claim C5: for every event date and every current instant, the today-test of the
helper returns true exactly when the two instants fall on the same IST
civil day; the result depends only on the civil day of the stored event
date (not on its time-of-day), it is false for an event dated on the next
civil day and true for one dated today. -/
theorem c5_qualifies_today_iff (e n : Int) :
    (isEventToday e n = true ↔ sameCivilDayIST e n = true) ∧
    (isEventToday e n = true ↔ istDayNumber e = istDayNumber n) ∧
    (∀ e2, istDayNumber e2 = istDayNumber e → isEventToday e2 n = isEventToday e n) ∧
    (istDayNumber e = istDayNumber n + 1 → isEventToday e n = false) ∧
    (istDayNumber e = istDayNumber n → isEventToday e n = true) := by
  have hms : (msPerDay : Int) ≠ 0 := by norm_num [msPerDay]
  have key : ∀ a b : Int, isEventToday a b = true ↔ istDayNumber a = istDayNumber b := by
    intro a b
    unfold isEventToday getISTDate istDayNumber
    rw [beq_iff_eq]
    exact ⟨fun h => mul_right_cancel₀ hms h, fun h => by rw [h]⟩
  refine ⟨?_, key e n, ?_, ?_, fun h => (key e n).mpr h⟩
  · rw [key e n]
    unfold sameCivilDayIST
    rw [beq_iff_eq]
  · intro e2 he
    by_cases hd : istDayNumber e = istDayNumber n
    · rw [(key e n).mpr hd, (key e2 n).mpr (he.trans hd)]
    · have h1 : isEventToday e n = false := by
        cases hb : isEventToday e n with
        | false => rfl
        | true => exact absurd ((key e n).mp hb) hd
      have h2 : isEventToday e2 n = false := by
        cases hb : isEventToday e2 n with
        | false => rfl
        | true => exact absurd (he.symm.trans ((key e2 n).mp hb)) hd
      rw [h1, h2]
  · intro h
    cases hb : isEventToday e n with
    | false => rfl
    | true =>
      have := (key e n).mp hb
      omega

/-- c5_witness instantiates c5_qualifies_today_iff: an event dated on the next
IST civil day does not qualify, an event dated on the current one does. -/
theorem c5_witness :
    isEventToday 86400000 0 = false ∧ isEventToday 5 0 = true :=
  ⟨(c5_qualifies_today_iff 86400000 0).2.2.2.1 (by decide),
   (c5_qualifies_today_iff 5 0).2.2.2.2 (by decide)⟩

/-- Claim C8 counterexample: under unreachable storage the scheduler dispatch step
propagates the error as an exception instead of returning a structured
result, contradicting the claim that every step returns a structured
result rather than raising. -/
theorem c8_counterexample :
    sendCertificatesForEventRun (some "storage unreachable")
      { events := [], participants := [], certificates := [] } evA emOkAll 0 =
      Except.error "storage unreachable" := rfl

/-- Claim C8 amended: under a fatal storage error the helper steps catch it and
return a structured failure result carrying the error message, while the
scheduler per-event steps re-throw it to their caller. -/
theorem c8_structured_results (e : String) (db : DB) (eventId : Nat)
    (participantIds : Option (List Nat)) (event : Event)
    (gen : Nat → String → CertResult) (email : Nat → EmailResult) (now : Int) :
    generateCertificatesForNewParticipantsRun (some e) db eventId participantIds gen now =
      ({ success := false, message := e }, db) ∧
    sendGeneratedCertificatesRun (some e) db eventId email now =
      ({ success := false, message := e }, db, []) ∧
    generateCertificatesForEventRun (some e) db event gen now = Except.error e ∧
    sendCertificatesForEventRun (some e) db event email now = Except.error e :=
  ⟨rfl, rfl, rfl, rfl⟩

/-- Claim C9 counterexample: when now coincides exactly with the 23:59 target on the
event date, the target is not strictly in the future, yet the trigger does
not decline: it returns a timer handle with delay 0, which is not strictly
positive. -/
theorem c9_counterexample :
    setLocalHours 0 istOffsetMs 23 59 = 66540000 ∧
    scheduleEventCertificateGeneration 0 66540000 istOffsetMs = some 0 := by
  decide

/-- Claim C9 amended: the one-shot trigger declines (returns none) whenever the
23:59 target on the event date is strictly before now; whenever it
schedules, the delay equals target minus now and is nonnegative, and it is
strictly positive whenever the target is strictly in the future. -/
theorem c9_schedule_delay (eventDate now off : Int) :
    (setLocalHours eventDate off 23 59 < now →
      scheduleEventCertificateGeneration eventDate now off = none) ∧
    (∀ d, scheduleEventCertificateGeneration eventDate now off = some d →
      d = setLocalHours eventDate off 23 59 - now ∧ 0 ≤ d) ∧
    (now < setLocalHours eventDate off 23 59 →
      scheduleEventCertificateGeneration eventDate now off =
        some (setLocalHours eventDate off 23 59 - now) ∧
      0 < setLocalHours eventDate off 23 59 - now) := by
  unfold scheduleEventCertificateGeneration
  refine ⟨fun h => by rw [if_pos h], ?_, ?_⟩
  · intro d hd
    split at hd
    · exact absurd hd (by simp)
    case isFalse h =>
      cases hd
      exact ⟨rfl, by omega⟩
  · intro h
    rw [if_neg (by omega)]
    exact ⟨rfl, by omega⟩

/-- c9_witness instantiates c9_schedule_delay at an instant strictly before
the target: the trigger schedules and the delay is strictly positive. -/
theorem c9_witness :
    scheduleEventCertificateGeneration 0 0 istOffsetMs =
      some (setLocalHours 0 istOffsetMs 23 59 - 0) ∧
    (0:Int) < setLocalHours 0 istOffsetMs 23 59 - 0 :=
  (c9_schedule_delay 0 0 istOffsetMs).2.2 (by decide)

/-- Claim C10: in the helper Generation Step the missing-template check runs only
after the pending-participant query, so an event with no template but also
no pending participants gets the success-true no-new-participants result
with count 0, and the database is left unchanged. -/
theorem c10_empty_pending_before_template_check (db : DB) (eventId : Nat)
    (participantIds : Option (List Nat)) (gen : Nat → String → CertResult)
    (now : Int) (event : Event)
    (hev : db.findEvent eventId = some event)
    (hfut : ¬ getISTDate now < getISTDate event.date)
    (hq : pendingParticipants db eventId participantIds = [])
    (hnc : db.findCertificate event.id = none) :
    generateCertificatesForNewParticipants db eventId participantIds gen now =
      ({ success := true
         message := "No new participants found or all have already received certificates"
         count := some 0 }, db) := by
  unfold generateCertificatesForNewParticipants
  rw [hev]
  dsimp only
  rw [if_neg hfut, if_pos (by rw [hq]; rfl)]

/-- c10_witness instantiates c10_empty_pending_before_template_check on a
concrete event with no template and no participants. -/
theorem c10_witness :
    generateCertificatesForNewParticipants dbC10 1 none genFailAll 0 =
      ({ success := true
         message := "No new participants found or all have already received certificates"
         count := some 0 }, dbC10) :=
  c10_empty_pending_before_template_check dbC10 1 none genFailAll 0 evA
    (by decide) (by decide) (by decide) (by decide)

/-- Claim C7 counterexample: an event that exists and has no CertificateTemplate but
whose only participant already has certificateSent true makes the helper
Generation Step return success true (the no-new-participants result), not
the success-false template-not-found result the claim demands for every
such event. -/
theorem c7_counterexample :
    (dbC7.findEvent 1).isSome = true ∧
    dbC7.findCertificate 1 = none ∧
    (generateCertificatesForNewParticipants dbC7 1 none genFailAll 0).1.success = true ∧
    (generateCertificatesForNewParticipants dbC7 1 none genFailAll 0).1.message =
      "No new participants found or all have already received certificates" := by
  decide

/-- Claim C7 amended: for an event that exists and has no CertificateTemplate, the
helper Dispatch Step always returns the success-false template-not-found
result and leaves the database unchanged; the helper Generation Step does
so provided the event is not dated in the future and its pending set is
nonempty (with an empty pending set it returns the success-true
no-new-participants result instead). -/
theorem c7_missing_template (db : DB) (eventId : Nat)
    (participantIds : Option (List Nat)) (gen : Nat → String → CertResult)
    (email : Nat → EmailResult) (now : Int) (event : Event)
    (hev : db.findEvent eventId = some event)
    (hnc : db.findCertificate event.id = none) :
    ((¬ getISTDate now < getISTDate event.date) →
      pendingParticipants db eventId participantIds ≠ [] →
      generateCertificatesForNewParticipants db eventId participantIds gen now =
        ({ success := false
           message := "Certificate template not found for this event" }, db)) ∧
    sendGeneratedCertificates db eventId email now =
      ({ success := false
         message := "Certificate template not found for this event" }, db, []) := by
  constructor
  · intro hfut hne
    unfold generateCertificatesForNewParticipants
    rw [hev]
    dsimp only
    rw [if_neg hfut, if_neg (fun h => hne (List.isEmpty_iff.mp h)), hnc]
  · unfold sendGeneratedCertificates
    rw [hev]
    dsimp only
    rw [hnc]

/-- c7_witness instantiates c7_missing_template on a concrete event with no
template and one pending participant: both steps return the success-false
template-not-found result and write nothing. -/
theorem c7_witness :
    generateCertificatesForNewParticipants dbC7b 1 none genFailAll 0 =
      ({ success := false
         message := "Certificate template not found for this event" }, dbC7b) ∧
    sendGeneratedCertificates dbC7b 1 emOkAll 0 =
      ({ success := false
         message := "Certificate template not found for this event" }, dbC7b, []) :=
  ⟨(c7_missing_template dbC7b 1 none genFailAll emOkAll 0 evA
      (by decide) (by decide)).1 (by decide) (by decide),
   (c7_missing_template dbC7b 1 none genFailAll emOkAll 0 evA
      (by decide) (by decide)).2⟩

/-- Claim C1 counterexample: a dispatch run of the scheduler over a single pending
participant whose email succeeds sets the record's sentAt and the
participant's certificateSent flag, but leaves certificateSentAt at none
instead of the current time the claim requires. -/
theorem c1_counterexample :
    (sendCertificatesForEvent dbC1 evA emOkAll 77).1 = { total := 1, sent := 1 } ∧
    (sendCertificatesForEvent dbC1 evA emOkAll 77).2.2 = [1] ∧
    (sendCertificatesForEvent dbC1 evA emOkAll 77).2.1.participants =
      [{ id := 1, eventId := 1, certificateSent := true, certificateSentAt := none }] := by
  decide

/-- Claim C1 amended: in the scheduler dispatch loop, when the email for a pending
record succeeds, the step stores sentAt = now on that record, sets the
participant's certificateSent flag to true on a persisted copy whose
certificateSentAt is unchanged, and only then (third conjunct) does the
loop move on to the remaining pending records, so the participant update
is persisted before the next participant is processed. -/
theorem c1_dispatch_success_persists (email : Nat → EmailResult) (now : Int)
    (st : SendLoopStS) (g : GenerationRecord) (rest : List GenerationRecord)
    (p : Participant) (r : GenerationRecord)
    (hmail : (email g.participantId).success = true)
    (hp : st.parts.find? (fun q => q.id == g.participantId) = some p)
    (hr : st.records.find? (fun x => x.participantId == g.participantId &&
            x.generatedAt.isSome && x.sentAt.isNone) = some r) :
    { p with certificateSent := true } ∈ (sendStepS email now st g).parts ∧
    { r with sentAt := some now } ∈ (sendStepS email now st g).records ∧
    (g :: rest).foldl (sendStepS email now) st =
      rest.foldl (sendStepS email now) (sendStepS email now st g) := by
  refine ⟨?_, ?_, rfl⟩
  · simp only [sendStepS, hmail, if_true]
    exact mem_updateFirst_of_find? hp
  · simp only [sendStepS, hmail, if_true]
    exact mem_updateFirst_of_find? hr

/-- c1_witness instantiates c1_dispatch_success_persists on the concrete
single-record state of dbC1. -/
theorem c1_witness :
    ({ id := 1, eventId := 1, certificateSent := true } : Participant) ∈
      (sendStepS emOkAll 77 stC1 gC1).parts ∧
    ({ participantId := 1, generatedAt := some 2, sentAt := some 77 } : GenerationRecord) ∈
      (sendStepS emOkAll 77 stC1 gC1).records ∧
    [gC1].foldl (sendStepS emOkAll 77) stC1 =
      [].foldl (sendStepS emOkAll 77) (sendStepS emOkAll 77 stC1 gC1) :=
  c1_dispatch_success_persists emOkAll 77 stC1 gC1 []
    { id := 1, eventId := 1 } { participantId := 1, generatedAt := some 2 }
    (by decide) (by decide) (by decide)

/-- Claim C3 counterexample: the scheduler dispatch's pending set does not consult
the participant's certificateSent flag: a participant whose flag is
already true but whose record is still pending is emailed by the run,
contradicting the claim that a participant with either done-signal set is
never emailed. -/
theorem c3_counterexample :
    dbC3.participants = [{ id := 1, eventId := 1, certificateSent := true }] ∧
    (sendCertificatesForEvent dbC3 evA emOkAll 9).2.2 = [1] := by
  decide

/-- Claim C3 amended: the scheduler dispatch's pending set contains a record exactly
when its generatedAt is set and its sentAt is absent; every email of the
run goes to the participant id of such a record, so a participant all of
whose records have sentAt set is never emailed — but the participant's
certificateSent flag is not part of the criterion. -/
theorem c3_pending_set_charac (db : DB) (event : Event)
    (email : Nat → EmailResult) (now : Int) (tmpl : Certificate)
    (hfind : db.findCertificate event.id = some tmpl) :
    (∀ g, g ∈ pendingSends tmpl ↔
      (g ∈ tmpl.generatedCertificates ∧ g.generatedAt.isSome = true ∧ g.sentAt = none)) ∧
    (∀ pid, pid ∈ (sendCertificatesForEvent db event email now).2.2 →
      ∃ g ∈ tmpl.generatedCertificates,
        g.participantId = pid ∧ g.generatedAt.isSome = true ∧ g.sentAt = none) ∧
    (∀ pid, (∀ g ∈ tmpl.generatedCertificates, g.participantId = pid → g.sentAt ≠ none) →
      pid ∉ (sendCertificatesForEvent db event email now).2.2) := by
  have hchar : ∀ g, g ∈ pendingSends tmpl ↔
      (g ∈ tmpl.generatedCertificates ∧ g.generatedAt.isSome = true ∧ g.sentAt = none) := by
    intro g
    unfold pendingSends
    rw [List.mem_filter]
    constructor
    · intro ⟨h1, h2⟩
      rcases Bool.and_eq_true_iff.mp h2 with ⟨ha, hb⟩
      exact ⟨h1, ha, Option.isNone_iff_eq_none.mp hb⟩
    · intro ⟨h1, h2, h3⟩
      exact ⟨h1, Bool.and_eq_true_iff.mpr ⟨h2, by simp [h3]⟩⟩
  have hsub : ∀ pid, pid ∈ (sendCertificatesForEvent db event email now).2.2 →
      ∃ g ∈ tmpl.generatedCertificates,
        g.participantId = pid ∧ g.generatedAt.isSome = true ∧ g.sentAt = none := by
    intro pid h
    rw [sendCertificatesForEvent_emails email now hfind] at h
    rcases List.mem_map.mp h with ⟨g, hg, hid⟩
    obtain ⟨h1, h2, h3⟩ := (hchar g).mp hg
    exact ⟨g, h1, hid, h2, h3⟩
  refine ⟨hchar, hsub, ?_⟩
  intro pid hall h
  obtain ⟨g, h1, hid, _, h3⟩ := hsub pid h
  exact hall g h1 hid h3

/-- c3_witness instantiates c3_pending_set_charac on dbC3: participant 3,
whose only record already has sentAt set, is not emailed by the run. -/
theorem c3_witness :
    3 ∉ (sendCertificatesForEvent dbC3 evA emOkAll 9).2.2 :=
  (c3_pending_set_charac dbC3 evA emOkAll 9 tmplC3 (by decide)).2.2 3 (by decide)

/-- Claim C4: for the helper Dispatch Step, running it twice in succession never
emails, in the second run, a participant whose certificateSent flag is
true after the first run: the second run's query selects only participants
whose flag is still false. -/
theorem c4_no_second_email (db : DB) (eventId : Nat)
    (e1 e2 : Nat → EmailResult) (t1 t2 : Int) (pid : Nat)
    (hflag : ∀ p ∈ (sendGeneratedCertificates db eventId e1 t1).2.1.participants,
      p.id = pid → p.certificateSent = true) :
    pid ∉ (sendGeneratedCertificates (sendGeneratedCertificates db eventId e1 t1).2.1
      eventId e2 t2).2.2 := by
  intro hmem
  obtain ⟨p, hp, hpid⟩ := sendH_emails_sub e2 t2 pid hmem
  have hp2 := List.mem_filter.mp hp
  have hflagfalse : p.certificateSent = false := by
    rcases Bool.and_eq_true_iff.mp hp2.2 with ⟨_, hb⟩
    simpa using hb
  have := hflag p hp2.1 hpid
  rw [hflagfalse] at this
  exact absurd this (by simp)

/-- c4_witness instantiates c4_no_second_email on dbC4, whose only participant
already has certificateSent true after the first run. -/
theorem c4_witness :
    1 ∉ (sendGeneratedCertificates (sendGeneratedCertificates dbC4 1 emOkAll 0).2.1
      1 emOkAll 1).2.2 :=
  c4_no_second_email dbC4 1 emOkAll emOkAll 0 1 1 (by decide)

theorem successCount_append (a b : List ItemResult) :
    successCount (a ++ b) = successCount a + successCount b := by
  unfold successCount
  rw [List.filter_append, List.length_append]

theorem genStepH_results_length (gen : Nat → String → CertResult) (tt : String)
    (now : Int) (st : GenLoopStH) (p : Participant) :
    ((genStepH gen tt now st p).results).length = st.results.length + 1 := by
  unfold genStepH
  split <;> simp

theorem genFoldH_results_length (gen : Nat → String → CertResult) (tt : String)
    (now : Int) :
    ∀ (l : List Participant) (st : GenLoopStH),
      ((l.foldl (genStepH gen tt now) st).results).length =
        st.results.length + l.length := by
  intro l
  induction l with
  | nil => intro st; simp
  | cons p ps ih =>
    intro st
    rw [List.foldl_cons, ih, genStepH_results_length, List.length_cons]
    omega

theorem genStepH_successCount (gen : Nat → String → CertResult) (tt : String)
    (now : Int) (st : GenLoopStH) (p : Participant) :
    successCount (genStepH gen tt now st p).results =
      successCount st.results + (if (gen p.id tt).success then 1 else 0) := by
  unfold genStepH
  split
  case isTrue h =>
    dsimp only
    rw [successCount_append]
    rfl
  case isFalse h =>
    dsimp only
    rw [successCount_append]
    rfl

theorem genFoldH_successCount (gen : Nat → String → CertResult) (tt : String)
    (now : Int) :
    ∀ (l : List Participant) (st : GenLoopStH),
      successCount (l.foldl (genStepH gen tt now) st).results =
        successCount st.results +
          (l.filter (fun p => (gen p.id tt).success)).length := by
  intro l
  induction l with
  | nil => intro st; simp
  | cons p ps ih =>
    intro st
    rw [List.foldl_cons, ih, genStepH_successCount, List.filter_cons]
    split
    · rw [List.length_cons]; omega
    · omega

theorem genStepH_records_sub (gen : Nat → String → CertResult) (tt : String)
    (now : Int) (st : GenLoopStH) (p : Participant) :
    ∀ g ∈ (genStepH gen tt now st p).cert.generatedCertificates,
      g ∈ st.cert.generatedCertificates ∨
        ((gen p.id tt).success = true ∧ g.participantId = p.id) := by
  intro g hg
  unfold genStepH at hg
  split at hg
  case isTrue h =>
    dsimp only at hg
    rcases List.mem_append.mp hg with h1 | h2
    · exact Or.inl h1
    · rw [List.mem_singleton] at h2
      subst h2
      exact Or.inr ⟨h, rfl⟩
  case isFalse h => exact Or.inl hg

theorem genFoldH_records_sub (gen : Nat → String → CertResult) (tt : String)
    (now : Int) :
    ∀ (l : List Participant) (st : GenLoopStH),
      ∀ g ∈ (l.foldl (genStepH gen tt now) st).cert.generatedCertificates,
        g ∈ st.cert.generatedCertificates ∨
          ∃ p ∈ l, (gen p.id tt).success = true ∧ g.participantId = p.id := by
  intro l
  induction l with
  | nil => intro st g hg; exact Or.inl hg
  | cons p ps ih =>
    intro st g hg
    rw [List.foldl_cons] at hg
    rcases ih _ g hg with h1 | h2
    · rcases genStepH_records_sub gen tt now st p g h1 with ha | hb
      · exact Or.inl ha
      · exact Or.inr ⟨p, by simp, hb⟩
    · obtain ⟨x, hx, hxp⟩ := h2
      exact Or.inr ⟨x, List.mem_cons_of_mem _ hx, hxp⟩

theorem genStepH_cert_eventId (gen : Nat → String → CertResult) (tt : String)
    (now : Int) (st : GenLoopStH) (p : Participant) :
    (genStepH gen tt now st p).cert.eventId = st.cert.eventId := by
  unfold genStepH
  split <;> rfl

theorem genFoldH_cert_eventId (gen : Nat → String → CertResult) (tt : String)
    (now : Int) :
    ∀ (l : List Participant) (st : GenLoopStH),
      ((l.foldl (genStepH gen tt now) st)).cert.eventId = st.cert.eventId := by
  intro l
  induction l with
  | nil => intro st; rfl
  | cons p ps ih =>
    intro st
    rw [List.foldl_cons, ih, genStepH_cert_eventId]

theorem pendingParticipants_save (db : DB) (c : Certificate) (eventId : Nat)
    (o : Option (List Nat)) :
    pendingParticipants (db.saveCertificate c) eventId o =
      pendingParticipants db eventId o := rfl

/-- Claim C6: a helper Generation Step run over exactly three pending participants,
with rendering failing for the second and succeeding for the others, does
not stop at the failure: it reports total 3, successful 2, failed 1, the
failed participant still has no GenerationRecord in the saved template,
and they remain in the pending-generation set for the next run. -/
theorem c6_partial_failure_isolation (db : DB) (eventId : Nat)
    (gen : Nat → String → CertResult) (now : Int) (event : Event)
    (cert : Certificate) (p1 p2 p3 : Participant)
    (hev : db.findEvent eventId = some event)
    (hfut : ¬ getISTDate now < getISTDate event.date)
    (hq : pendingParticipants db eventId none = [p1, p2, p3])
    (hcert : db.findCertificate event.id = some cert)
    (hg1 : ∀ s, (gen p1.id s).success = true)
    (hg2 : ∀ s, (gen p2.id s).success = false)
    (hg3 : ∀ s, (gen p3.id s).success = true)
    (hnr : ∀ g ∈ cert.generatedCertificates, g.participantId ≠ p2.id)
    (hd1 : p1.id ≠ p2.id) (hd3 : p3.id ≠ p2.id) :
    (generateCertificatesForNewParticipants db eventId none gen now).1.total = some 3 ∧
    (generateCertificatesForNewParticipants db eventId none gen now).1.successful = some 2 ∧
    (generateCertificatesForNewParticipants db eventId none gen now).1.failed = some 1 ∧
    (∀ tmpl2, (generateCertificatesForNewParticipants db eventId none gen now).2.findCertificate
        event.id = some tmpl2 →
      ∀ g ∈ tmpl2.generatedCertificates, g.participantId ≠ p2.id) ∧
    p2 ∈ pendingParticipants (generateCertificatesForNewParticipants db eventId none gen now).2
      eventId none := by
  have hne : ¬ (pendingParticipants db eventId none).isEmpty = true := by
    rw [hq]; simp
  have hmain := generateH_eq_main gen now hev hfut hne hcert
  have hcid : cert.eventId = event.id := by
    have := List.find?_some hcert
    simpa using this
  have hlen : (genFoldH gen (templateTypeOf cert) now cert
      (pendingParticipants db eventId none)).results.length = 3 := by
    unfold genFoldH
    rw [hq, genFoldH_results_length]
    rfl
  have hsucc : successCount (genFoldH gen (templateTypeOf cert) now cert
      (pendingParticipants db eventId none)).results = 2 := by
    unfold genFoldH
    rw [hq, genFoldH_successCount]
    simp [successCount, List.filter_cons, hg1 (templateTypeOf cert),
      hg2 (templateTypeOf cert), hg3 (templateTypeOf cert)]
  refine ⟨?_, ?_, ?_, ?_, ?_⟩
  · rw [hmain]
    dsimp only
    rw [hlen]
  · rw [hmain]
    dsimp only
    rw [hsucc]
  · rw [hmain]
    dsimp only
    rw [hlen, hsucc]
  · intro tmpl2 htmpl2 g hg
    rw [hmain] at htmpl2
    dsimp only at htmpl2
    have hsave : ((db.saveCertificate (genFoldH gen (templateTypeOf cert) now cert
        (pendingParticipants db eventId none)).cert)).findCertificate event.id =
        some (genFoldH gen (templateTypeOf cert) now cert
          (pendingParticipants db eventId none)).cert := by
      have heid : (genFoldH gen (templateTypeOf cert) now cert
          (pendingParticipants db eventId none)).cert.eventId = event.id := by
        unfold genFoldH
        rw [genFoldH_cert_eventId]
        exact hcid
      have hfind0 : db.findCertificate (genFoldH gen (templateTypeOf cert) now cert
          (pendingParticipants db eventId none)).cert.eventId = some cert := by
        rw [heid]
        exact hcert
      have h2 := findCertificate_saveCertificate hfind0
      rw [heid] at h2
      exact h2
    rw [hsave] at htmpl2
    cases htmpl2
    unfold genFoldH at hg
    rcases genFoldH_records_sub gen (templateTypeOf cert) now _ _ g hg with h1 | h2
    · exact hnr g h1
    · obtain ⟨p, hp, hps, hpid⟩ := h2
      rw [hq] at hp
      rcases List.mem_cons.mp hp with h | hp
      · subst h; rw [hpid]; exact hd1
      rcases List.mem_cons.mp hp with h | hp
      · subst h
        rw [hg2 (templateTypeOf cert)] at hps
        exact absurd hps (by simp)
      rcases List.mem_cons.mp hp with h | hp
      · subst h; rw [hpid]; exact hd3
      · simp at hp
  · rw [hmain]
    dsimp only
    rw [pendingParticipants_save, hq]
    simp

/-- c6_witness instantiates c6_partial_failure_isolation on dbC6 with the
oracle genC6 failing exactly for participant 2. -/
theorem c6_witness :
    (generateCertificatesForNewParticipants dbC6 1 none genC6 0).1.total = some 3 ∧
    (generateCertificatesForNewParticipants dbC6 1 none genC6 0).1.successful = some 2 ∧
    (generateCertificatesForNewParticipants dbC6 1 none genC6 0).1.failed = some 1 ∧
    (∀ tmpl2, (generateCertificatesForNewParticipants dbC6 1 none genC6 0).2.findCertificate
        1 = some tmpl2 → ∀ g ∈ tmpl2.generatedCertificates, g.participantId ≠ 2) ∧
    ({ id := 2, eventId := 1 } : Participant) ∈
      pendingParticipants (generateCertificatesForNewParticipants dbC6 1 none genC6 0).2
        1 none :=
  c6_partial_failure_isolation dbC6 1 genC6 0 evA { eventId := 1 }
    { id := 1, eventId := 1 } { id := 2, eventId := 1 } { id := 3, eventId := 1 }
    (by decide) (by decide) (by decide) (by decide)
    (fun _ => rfl) (fun _ => rfl) (fun _ => rfl)
    (by decide) (by decide) (by decide)

theorem participantsForEvent_congr {db1 db2 : DB} (event : Event)
    (h : db1.participants = db2.participants) :
    participantsForEvent db1 event = participantsForEvent db2 event := by
  unfold participantsForEvent
  rw [h]

theorem generateS_run (db : DB) (event : Event) (tmpl : Certificate)
    (gen : Nat → String → CertResult) (now : Int)
    (hfind : db.findCertificate event.id = some tmpl) :
    ∃ tmpl1 : Certificate,
      (generateCertificatesForEvent db event gen now).2.findCertificate event.id = some tmpl1 ∧
      (generateCertificatesForEvent db event gen now).2.participants = db.participants ∧
      ((recordPids tmpl).Nodup → (recordPids tmpl1).Nodup) ∧
      (∀ pid, hasGenRec tmpl.generatedCertificates pid = true →
        hasGenRec tmpl1.generatedCertificates pid = true) ∧
      ((∀ pid s, (gen pid s).success = true) →
        ∀ p ∈ participantsForEvent db event,
          hasGenRec tmpl1.generatedCertificates p.id = true) := by
  have hcid : tmpl.eventId = event.id := by
    simpa using List.find?_some hfind
  by_cases htg : (toGenerate db event tmpl).isEmpty = true
  · rw [generateS_eq_of_empty gen now hfind htg]
    refine ⟨tmpl, hfind, rfl, fun h => h, fun _ h => h, ?_⟩
    intro _ p hp
    by_contra hnot
    have hnotmem : p.id ∉ alreadyGeneratedIds tmpl :=
      fun hmem2 => hnot (mem_alreadyGeneratedIds.mp hmem2)
    have hmem : p ∈ toGenerate db event tmpl := by
      unfold toGenerate
      rw [List.mem_filter]
      exact ⟨hp, by simp [hnotmem]⟩
    rw [List.isEmpty_iff.mp htg] at hmem
    simp at hmem
  · rw [generateS_eq_of_ne gen now hfind htg]
    refine ⟨{ tmpl with
        generatedCertificates := (genFoldS gen (templateTypeOf tmpl) now tmpl
          (toGenerate db event tmpl)).records }, ?_, rfl, ?_, ?_, ?_⟩
    · have hf0 : db.findCertificate
          ({ tmpl with
             generatedCertificates := (genFoldS gen (templateTypeOf tmpl) now tmpl
               (toGenerate db event tmpl)).records } : Certificate).eventId = some tmpl := by
        show db.findCertificate tmpl.eventId = some tmpl
        rw [hcid]
        exact hfind
      have h2 := findCertificate_saveCertificate hf0
      show (db.saveCertificate _).findCertificate event.id = _
      rw [← hcid]
      exact h2
    · intro h
      unfold recordPids at *
      unfold genFoldS
      exact genFoldS_pids_nodup gen (templateTypeOf tmpl) now _ _ h
    · intro pid h
      unfold genFoldS
      exact genFoldS_hasGenRec_mono gen (templateTypeOf tmpl) now _ _ pid h
    · intro hall p hp
      by_cases hmem : p ∈ toGenerate db event tmpl
      · unfold genFoldS
        exact genFoldS_hasGenRec_covers gen (templateTypeOf tmpl) now _ _
          (fun q _ => hall q.id (templateTypeOf tmpl)) p hmem
      · have hcontains : p.id ∈ alreadyGeneratedIds tmpl := by
          by_contra hnc
          exact hmem (by
            unfold toGenerate
            rw [List.mem_filter]
            exact ⟨hp, by simp [hnc]⟩)
        unfold genFoldS
        exact genFoldS_hasGenRec_mono gen (templateTypeOf tmpl) now _ _ p.id
          (mem_alreadyGeneratedIds.mp hcontains)

/-- Claim C2 counterexample: the helper Generation Step deduplicates only on
the certificateSent flag, which generation never sets, so invoking it
twice in succession (before any dispatch) appends a second
GenerationRecord for every participant — after two runs over dbC2 the
template's record ids are [1, 2, 1, 2] — and the second invocation
reports 2 successful generations for the already-generated participants
instead of 0. -/
theorem c2_counterexample :
    ((generateCertificatesForNewParticipants (generateCertificatesForNewParticipants dbC2 1
        none genOkAll 5).2 1 none genOkAll 6).2.findCertificate 1).map recordPids =
      some [1, 2, 1, 2] ∧
    ¬ ([1, 2, 1, 2] : List Nat).Nodup ∧
    (generateCertificatesForNewParticipants (generateCertificatesForNewParticipants dbC2 1
        none genOkAll 5).2 1 none genOkAll 6).1.successful = some 2 := by
  decide

/-- Claim C2 amended: for the scheduler Generation Step, two successive runs never leave a
duplicate GenerationRecord (the record-id list stays duplicate-free), and
when the first run's rendering succeeds for every participant the second
run generates nothing: it reports total 0, generated 0 — in particular 0
successful generations for the participants generated by the first run —
and leaves the database exactly as the first run left it. -/
theorem c2_generation_idempotent (db : DB) (event : Event)
    (gen1 gen2 : Nat → String → CertResult) (t1 t2 : Int) (tmpl : Certificate)
    (hfind : db.findCertificate event.id = some tmpl)
    (hnd : (recordPids tmpl).Nodup) :
    (∀ tmpl2 : Certificate,
      (generateCertificatesForEvent (generateCertificatesForEvent db event gen1 t1).2
          event gen2 t2).2.findCertificate event.id = some tmpl2 →
      (recordPids tmpl2).Nodup) ∧
    ((∀ pid s, (gen1 pid s).success = true) →
      (generateCertificatesForEvent (generateCertificatesForEvent db event gen1 t1).2
          event gen2 t2).1 = { total := 0, generated := 0 } ∧
      (generateCertificatesForEvent (generateCertificatesForEvent db event gen1 t1).2
          event gen2 t2).2 = (generateCertificatesForEvent db event gen1 t1).2) := by
  obtain ⟨tmpl1, hf1, hparts1, hnd1, hmono1, hcov1⟩ :=
    generateS_run db event tmpl gen1 t1 hfind
  constructor
  · intro tmpl2 hf2
    obtain ⟨tmpl2', hf2', _, hnd2, _, _⟩ :=
      generateS_run _ event tmpl1 gen2 t2 hf1
    have heq : tmpl2 = tmpl2' := by
      rw [hf2] at hf2'
      exact Option.some.inj hf2'
    rw [heq]
    exact hnd2 (hnd1 hnd)
  · intro hall
    have hempty : toGenerate (generateCertificatesForEvent db event gen1 t1).2
        event tmpl1 = [] := by
      unfold toGenerate
      rw [participantsForEvent_congr event hparts1]
      rw [List.filter_eq_nil_iff]
      intro p hp
      have hgen := hcov1 hall p hp
      have hmem : p.id ∈ alreadyGeneratedIds tmpl1 := mem_alreadyGeneratedIds.mpr hgen
      simp [hmem]
    have h2 := generateS_eq_of_empty gen2 t2 hf1 (by rw [hempty]; rfl)
    rw [h2]
    exact ⟨rfl, rfl⟩

/-- c2_witness instantiates c2_generation_idempotent on dbC2 with an
always-successful render oracle: the second run reports 0 and changes
nothing. -/
theorem c2_witness :
    (generateCertificatesForEvent (generateCertificatesForEvent dbC2 evA genOkAll 5).2
        evA genOkAll 6).1 = { total := 0, generated := 0 } ∧
    (generateCertificatesForEvent (generateCertificatesForEvent dbC2 evA genOkAll 5).2
        evA genOkAll 6).2 = (generateCertificatesForEvent dbC2 evA genOkAll 5).2 :=
  (c2_generation_idempotent dbC2 evA genOkAll genOkAll 5 6 { eventId := 1 }
    (by decide) (by decide)).2 (fun _ _ => rfl)

end TaskAutomation
